import Mathlib

/-!
# Verification of the Parallax module (EvitcaStudio/Parallax)

Shallow embedding of the TypeScript revision of `src/parallax.mjs`
(class `ParallaxSingleton`), of `src/events.ts`, and of the `Layer`
class from `src/layer.mjs`.

JS numbers are modelled as rationals (`ℚ`); every arithmetic operation
the module performs (+, -, *, division by the constants 2 and 6,
`Math.floor`) is exact on the inputs the claims quantify over.
`null`/`undefined`-able fields are modelled with `Option`.
-/

namespace Parallax

/-- `pInstance.icon` : the icon dimensions of a host object. -/
structure Icon where
  width : ℚ
  height : ℚ
deriving Repr, DecidableEq

/-- `pInstance.scale` : the scale factor of a host object (`{x, y}`). -/
structure Scale where
  x : ℚ
  y : ℚ
deriving Repr, DecidableEq

/-- A tiling clone created by `createLoopInstances` /
`toggleInfiniteHorizontal` / `toggleInfiniteVertical`.
`relativeX`/`relativeY` are the offsets from the parent stored at
creation time; `isCullable` is set to `false` on creation. -/
structure Child where
  x : ℚ
  y : ℚ
  mapName : Option String
  isCullable : Bool
  relativeX : ℚ
  relativeY : ℚ
deriving Repr, DecidableEq

/-- A host instance, with the fields the module reads and writes.
`oldX`/`oldY` model the `_parallaxOldX`/`_parallaxOldY` expando fields
(initially `undefined`, hence `Option`). -/
structure Instance where
  x : ℚ
  y : ℚ
  mapName : Option String
  icon : Icon
  scale : Scale
  oldX : Option ℚ := none
  oldY : Option ℚ := none
deriving Repr, DecidableEq

/-- The per-instance parallax configuration (`ParallaxInstanceInfo`).
`groundY` is optional in the TS interface; the embedding covers
configurations where a ground instance supplies it (the claims do too),
so it is a plain rational here. -/
structure ParallaxConfig where
  horizontalSpeed : ℚ
  verticalSpeed : ℚ
  infiniteHorizontal : Bool := false
  infiniteVertical : Bool := false
  cameraAnchorX : Option ℚ := none
  cameraAnchorY : Option ℚ := none
  ground : Bool := false
  groundY : ℚ := 0
  groundMapname : Option String := none
  horizontalChildren : Option (List Child) := none
  verticalChildren : Option (List Child) := none
deriving Repr, DecidableEq

/-- `CameraPosition` : `{ x: number | null, y: number | null }`. -/
structure CameraPosition where
  x : Option ℚ
  y : Option ℚ
deriving Repr, DecidableEq

/-- One tracked instance together with its configuration record in the
`instanceWeakMap`.  `id` models the JS object identity used by the
`instances` set and the weak map. -/
structure TrackedEntry where
  id : Nat
  inst : Instance
  config : ParallaxConfig
deriving Repr, DecidableEq

/-- The state of the `ParallaxSingleton`: the `instances` set (in
insertion order) joined with the weak-map records, the last camera
position, the global camera anchor with its is-set flags, and the
messages sent to `logger.error`. -/
structure ParallaxState where
  tracked : List TrackedEntry
  lastCamPos : CameraPosition
  cameraAnchor : CameraPosition
  anchorXSet : Bool
  anchorYSet : Bool
  errorLog : List String
deriving Repr, DecidableEq

/-- JS truthiness of a `number | null` value: `null`, and the number
`0`, are falsy. -/
def jsTruthy : Option ℚ → Bool
  | none => false
  | some v => decide (v ≠ 0)

/-- The JS `||` operator on `number | null` values, as used in
`this.getAnchorX() || pAnchor.x`. -/
def jsOr (a b : Option ℚ) : Option ℚ :=
  if jsTruthy a then a else b

/-- `const x = this.getAnchorX() || pAnchor.x; if (typeof x === 'number')
lastCamPosX = x;` — resolve the reference coordinate from the global
anchor coordinate, the per-instance anchor coordinate and the fallback
last-camera coordinate. -/
def anchorOverride (globalCoord instCoord : Option ℚ) (fallback : ℚ) : ℚ :=
  match jsOr globalCoord instCoord with
  | some v => v
  | none => fallback

/-- The reference x used by `updateInstance` for a non-ground instance:
`this.lastCamPos.x ?? 0`, overridden by the anchor logic when an anchor
argument is present. -/
def referenceLastX (cameraAnchor lastCamPos : CameraPosition)
    (pAnchor : Option CameraPosition) : ℚ :=
  match pAnchor with
  | some a => anchorOverride cameraAnchor.x a.x (lastCamPos.x.getD 0)
  | none => lastCamPos.x.getD 0

/-- The reference y used by `updateInstance` for a non-ground instance. -/
def referenceLastY (cameraAnchor lastCamPos : CameraPosition)
    (pAnchor : Option CameraPosition) : ℚ :=
  match pAnchor with
  | some a => anchorOverride cameraAnchor.y a.y (lastCamPos.y.getD 0)
  | none => lastCamPos.y.getD 0

/-- `const isBackgroundX = !ground && horizontalSpeed === 0;` -/
def isBackgroundX (cfg : ParallaxConfig) : Prop :=
  cfg.ground = false ∧ cfg.horizontalSpeed = 0

/-- `const isBackgroundY = !ground && verticalSpeed === 0;` -/
def isBackgroundY (cfg : ParallaxConfig) : Prop :=
  cfg.ground = false ∧ cfg.verticalSpeed = 0

instance (cfg : ParallaxConfig) : Decidable (isBackgroundX cfg) := by
  unfold isBackgroundX; infer_instance

instance (cfg : ParallaxConfig) : Decidable (isBackgroundY cfg) := by
  unfold isBackgroundY; infer_instance

/-- The `if (!ground) { ... }` repositioning block of `updateInstance`:
a background axis is recentred on the camera, a non-background axis
moves by `delta * speed` from the resolved reference position. -/
def reposition (inst : Instance) (cfg : ParallaxConfig)
    (cx cy lastX lastY : ℚ) : Instance :=
  let x :=
    if isBackgroundX cfg then cx - inst.icon.width * inst.scale.x / 2
    else inst.x + (cx - lastX) * cfg.horizontalSpeed
  let y :=
    if isBackgroundY cfg then cy - inst.icon.height * inst.scale.y / 2
    else inst.y + (cy - lastY) * cfg.verticalSpeed
  { inst with x := x, y := y }

/-- The `if (infiniteHorizontal) { if (lastCamPosX !== pCameraX) ... }`
wrap test: when the camera crossed `rightEnd = x + iconWidth*scaleX`
the instance shifts one full scaled width right; when it crossed
`leftEnd = Math.floor(x - iconWidth*scaleX/6)` it shifts one full
scaled width left. -/
def wrapX (inst : Instance) (cfg : ParallaxConfig) (cx lastX : ℚ) : Instance :=
  if cfg.infiniteHorizontal = true ∧ lastX ≠ cx then
    if cx > inst.x + inst.icon.width * inst.scale.x then
      { inst with x := inst.x + inst.icon.width * inst.scale.x }
    else if cx < ((⌊inst.x - inst.icon.width * inst.scale.x / 6⌋ : ℤ) : ℚ) then
      { inst with x := inst.x - inst.icon.width * inst.scale.x }
    else inst
  else inst

/-- The vertical wrap test (`bottomEnd`/`topEnd` with the scaled icon
height). -/
def wrapY (inst : Instance) (cfg : ParallaxConfig) (cy lastY : ℚ) : Instance :=
  if cfg.infiniteVertical = true ∧ lastY ≠ cy then
    if cy > inst.y + inst.icon.height * inst.scale.y then
      { inst with y := inst.y + inst.icon.height * inst.scale.y }
    else if cy < ((⌊inst.y - inst.icon.height * inst.scale.y / 6⌋ : ℤ) : ℚ) then
      { inst with y := inst.y - inst.icon.height * inst.scale.y }
    else inst
  else inst

/-- The tiling-wrap block of `updateInstance`.  It runs only when
neither axis is in background mode; the horizontal test runs first, the
vertical test then reads the (possibly shifted) instance. -/
def wrapStep (inst : Instance) (cfg : ParallaxConfig)
    (cx cy lastX lastY : ℚ) : Instance :=
  if ¬ isBackgroundX cfg ∧ ¬ isBackgroundY cfg then
    wrapY (wrapX inst cfg cx lastX) cfg cy lastY
  else inst

/-- `handleOnRelocated` : repositions every stored clone to the parent's
position plus the clone's stored relative offset. -/
def repositionChildren (inst : Instance) (cs : List Child) : List Child :=
  cs.map fun c => { c with x := inst.x + c.relativeX, y := inst.y + c.relativeY }

/-- `handleOnRelocated(pInstance)` applied to a configuration record. -/
def handleOnRelocated (inst : Instance) (cfg : ParallaxConfig) : ParallaxConfig :=
  { cfg with
    verticalChildren := cfg.verticalChildren.map (repositionChildren inst),
    horizontalChildren := cfg.horizontalChildren.map (repositionChildren inst) }

/-- The result of one `updateInstance` call: the mutated instance, the
mutated configuration record (clone positions), and whether a
`MoveEvent` was emitted. -/
structure UpdateResult where
  inst : Instance
  config : ParallaxConfig
  movedEvent : Bool
deriving Repr, DecidableEq

/-- `updateInstance(pInstance, pCameraX, pCameraY, pAnchor?)`.
For a ground instance the whole repositioning block (anchor resolution
included) is skipped; the wrap block then runs on the non-background
axes, clones are resynchronised and a `MoveEvent` is emitted whenever
the position changed since the previous tick. -/
def updateInstance (cameraAnchor lastCamPos : CameraPosition)
    (inst0 : Instance) (cfg : ParallaxConfig)
    (cx cy : ℚ) (pAnchor : Option CameraPosition) : UpdateResult :=
  let lastX := if cfg.ground then lastCamPos.x.getD 0
               else referenceLastX cameraAnchor lastCamPos pAnchor
  let lastY := if cfg.ground then lastCamPos.y.getD 0
               else referenceLastY cameraAnchor lastCamPos pAnchor
  let inst1 := if cfg.ground then inst0 else reposition inst0 cfg cx cy lastX lastY
  let inst2 := wrapStep inst1 cfg cx cy lastX lastY
  let moved : Bool := decide (inst2.oldX ≠ some inst2.x ∨ inst2.oldY ≠ some inst2.y)
  let cfg2 :=
    if moved = true ∧ (cfg.infiniteHorizontal = true ∨ cfg.infiniteVertical = true)
    then handleOnRelocated inst2 cfg else cfg
  ⟨{ inst2 with oldX := some inst2.x, oldY := some inst2.y }, cfg2, moved⟩

/-- `update(pCameraX = 0, pCameraY = 0)` : one tick over every tracked
instance (each sees the same `lastCamPos`, which is only replaced after
the loop), then the last camera position is replaced. -/
def update (st : ParallaxState) (cx cy : ℚ) : ParallaxState :=
  { st with
    tracked := st.tracked.map fun e =>
      let r := updateInstance st.cameraAnchor st.lastCamPos e.inst e.config cx cy none
      { e with inst := r.inst, config := r.config },
    lastCamPos := ⟨some cx, some cy⟩ }

/-- `toggleInfiniteHorizontal(pInstance)` : creates the left and right
clones one scaled icon-width away, stores them in the configuration
record, and records their relative offsets from the parent. -/
def toggleInfiniteHorizontal (inst : Instance) (cfg : ParallaxConfig) : ParallaxConfig :=
  let w := inst.icon.width * inst.scale.x
  let left : Child :=
    { x := inst.x - w, y := inst.y, mapName := inst.mapName, isCullable := false,
      relativeX := (inst.x - w) - inst.x, relativeY := inst.y - inst.y }
  let right : Child :=
    { x := inst.x + w, y := inst.y, mapName := inst.mapName, isCullable := false,
      relativeX := (inst.x + w) - inst.x, relativeY := inst.y - inst.y }
  { cfg with horizontalChildren := some [left, right] }

/-- `toggleInfiniteVertical(pInstance)` : the vertical analogue using
the scaled icon height. -/
def toggleInfiniteVertical (inst : Instance) (cfg : ParallaxConfig) : ParallaxConfig :=
  let h := inst.icon.height * inst.scale.y
  let top : Child :=
    { x := inst.x, y := inst.y - h, mapName := inst.mapName, isCullable := false,
      relativeX := inst.x - inst.x, relativeY := (inst.y - h) - inst.y }
  let bottom : Child :=
    { x := inst.x, y := inst.y + h, mapName := inst.mapName, isCullable := false,
      relativeX := inst.x - inst.x, relativeY := (inst.y + h) - inst.y }
  { cfg with verticalChildren := some [top, bottom] }

/-- `init(pInstance, pConfig)` with the camera position returned by
`getCamPos()` passed in.  Sets the last camera position on first
registration, places a ground instance at
`(cameraX - iconWidth*scaleX/2, groundY)` on `groundMapname`, otherwise
runs `updateInstance` with the per-instance anchor, and finally spawns
the tiling clones.  Returns the new last camera position, the mutated
instance and the mutated configuration record. -/
def init (camPos lastCamPos cameraAnchor : CameraPosition)
    (inst0 : Instance) (cfg0 : ParallaxConfig) :
    CameraPosition × Instance × ParallaxConfig :=
  let lastCamPos1 :=
    if ¬ (lastCamPos.x ≠ none ∧ lastCamPos.y ≠ none) ∧ camPos.x ≠ none ∧ camPos.y ≠ none
    then ⟨camPos.x, camPos.y⟩ else lastCamPos
  let step : Instance × ParallaxConfig :=
    match camPos.x, camPos.y with
    | some camX, some camY =>
      if cfg0.ground then
        ({ inst0 with x := camX - inst0.icon.width * inst0.scale.x / 2,
                      y := cfg0.groundY, mapName := cfg0.groundMapname }, cfg0)
      else
        let r := updateInstance cameraAnchor lastCamPos1 inst0 cfg0 camX camY
          (some ⟨cfg0.cameraAnchorX, cfg0.cameraAnchorY⟩)
        (r.inst, r.config)
    | some camX, none =>
      if cfg0.ground then
        ({ inst0 with x := camX - inst0.icon.width * inst0.scale.x / 2,
                      y := cfg0.groundY, mapName := cfg0.groundMapname }, cfg0)
      else (inst0, cfg0)
    | none, _ => (inst0, cfg0)
  let inst1 := step.1
  let cfg1 := step.2
  let cfg2 :=
    if cfg1.infiniteHorizontal = true ∧ cfg1.infiniteVertical = true then
      toggleInfiniteVertical inst1 (toggleInfiniteHorizontal inst1 cfg1)
    else if cfg1.infiniteHorizontal then toggleInfiniteHorizontal inst1 cfg1
    else if cfg1.infiniteVertical then toggleInfiniteVertical inst1 cfg1
    else cfg1
  (lastCamPos1, inst1, cfg2)

/-- The configuration argument of `add`: a structured record, or any
value that is not an `instanceof Object`. -/
inductive ConfigArg where
  | valid (cfg : ParallaxConfig)
  | invalid
deriving Repr, DecidableEq

/-- `add(pInstance, pConfig)` with the camera position passed in.
A missing instance or a non-object configuration logs one error and
changes nothing else; a duplicate registration is a silent no-op;
otherwise the configuration is cloned, the instance registered
(`setPos` with its captured position is a placement no-op) and `init`
run. -/
def add (st : ParallaxState) (camPos : CameraPosition)
    (pInstance : Option (Nat × Instance)) (pConfig : ConfigArg) : ParallaxState :=
  match pInstance with
  | none => { st with errorLog := st.errorLog ++ ["No pInstance passed!"] }
  | some (n, inst) =>
    match pConfig with
    | ConfigArg.invalid =>
      { st with errorLog := st.errorLog ++ ["No pConfig passed or invalid type found!"] }
    | ConfigArg.valid cfg =>
      if st.tracked.any (fun e => e.id == n) then st
      else
        let r := init camPos st.lastCamPos st.cameraAnchor inst cfg
        { st with tracked := st.tracked ++ [⟨n, r.2.1, r.2.2⟩], lastCamPos := r.1 }

/-- `setCameraAnchorX(pXAnchor)`. -/
def setCameraAnchorX (st : ParallaxState) (v : Option ℚ) : ParallaxState :=
  { st with cameraAnchor := { st.cameraAnchor with x := v }, anchorXSet := true }

/-- `setCameraAnchorY(pYAnchor)`. -/
def setCameraAnchorY (st : ParallaxState) (v : Option ℚ) : ParallaxState :=
  { st with cameraAnchor := { st.cameraAnchor with y := v }, anchorYSet := true }

/-! ## Structural lemmas about the update stages -/

lemma reposition_x_of_nonbg (inst : Instance) (cfg : ParallaxConfig)
    (cx cy lx ly : ℚ) (h : ¬ isBackgroundX cfg) :
    (reposition inst cfg cx cy lx ly).x
      = inst.x + (cx - lx) * cfg.horizontalSpeed := by
  simp [reposition, h]

lemma reposition_x_of_bg (inst : Instance) (cfg : ParallaxConfig)
    (cx cy lx ly : ℚ) (h : isBackgroundX cfg) :
    (reposition inst cfg cx cy lx ly).x
      = cx - inst.icon.width * inst.scale.x / 2 := by
  simp [reposition, h]

lemma reposition_y_of_nonbg (inst : Instance) (cfg : ParallaxConfig)
    (cx cy lx ly : ℚ) (h : ¬ isBackgroundY cfg) :
    (reposition inst cfg cx cy lx ly).y
      = inst.y + (cy - ly) * cfg.verticalSpeed := by
  simp [reposition, h]

lemma reposition_y_of_bg (inst : Instance) (cfg : ParallaxConfig)
    (cx cy lx ly : ℚ) (h : isBackgroundY cfg) :
    (reposition inst cfg cx cy lx ly).y
      = cy - inst.icon.height * inst.scale.y / 2 := by
  simp [reposition, h]

lemma reposition_icon (inst : Instance) (cfg : ParallaxConfig) (cx cy lx ly : ℚ) :
    (reposition inst cfg cx cy lx ly).icon = inst.icon := rfl

lemma reposition_scale (inst : Instance) (cfg : ParallaxConfig) (cx cy lx ly : ℚ) :
    (reposition inst cfg cx cy lx ly).scale = inst.scale := rfl

lemma wrapX_y (inst : Instance) (cfg : ParallaxConfig) (cx lx : ℚ) :
    (wrapX inst cfg cx lx).y = inst.y := by
  unfold wrapX; split_ifs <;> rfl

lemma wrapX_icon (inst : Instance) (cfg : ParallaxConfig) (cx lx : ℚ) :
    (wrapX inst cfg cx lx).icon = inst.icon := by
  unfold wrapX; split_ifs <;> rfl

lemma wrapX_scale (inst : Instance) (cfg : ParallaxConfig) (cx lx : ℚ) :
    (wrapX inst cfg cx lx).scale = inst.scale := by
  unfold wrapX; split_ifs <;> rfl

lemma wrapY_x (inst : Instance) (cfg : ParallaxConfig) (cy ly : ℚ) :
    (wrapY inst cfg cy ly).x = inst.x := by
  unfold wrapY; split_ifs <;> rfl

lemma wrapX_of_not_inf (inst : Instance) (cfg : ParallaxConfig) (cx lx : ℚ)
    (h : cfg.infiniteHorizontal = false) :
    wrapX inst cfg cx lx = inst := by
  unfold wrapX
  rw [if_neg]
  simp [h]

lemma wrapY_of_not_inf (inst : Instance) (cfg : ParallaxConfig) (cy ly : ℚ)
    (h : cfg.infiniteVertical = false) :
    wrapY inst cfg cy ly = inst := by
  unfold wrapY
  rw [if_neg]
  simp [h]

lemma wrapX_of_no_fire (inst : Instance) (cfg : ParallaxConfig) (cx lx : ℚ)
    (h1 : cx ≤ inst.x + inst.icon.width * inst.scale.x)
    (h2 : ((⌊inst.x - inst.icon.width * inst.scale.x / 6⌋ : ℤ) : ℚ) ≤ cx) :
    wrapX inst cfg cx lx = inst := by
  unfold wrapX
  split_ifs with hA hB hC
  · exact absurd hB (not_lt.2 h1)
  · exact absurd hC (not_lt.2 h2)
  · rfl
  · rfl

lemma wrapX_x_cases (inst : Instance) (cfg : ParallaxConfig) (cx lx : ℚ) :
    (wrapX inst cfg cx lx).x = inst.x
      ∨ (wrapX inst cfg cx lx).x = inst.x + inst.icon.width * inst.scale.x
      ∨ (wrapX inst cfg cx lx).x = inst.x - inst.icon.width * inst.scale.x := by
  unfold wrapX
  split_ifs <;> simp

lemma wrapY_y_cases (inst : Instance) (cfg : ParallaxConfig) (cy ly : ℚ) :
    (wrapY inst cfg cy ly).y = inst.y
      ∨ (wrapY inst cfg cy ly).y = inst.y + inst.icon.height * inst.scale.y
      ∨ (wrapY inst cfg cy ly).y = inst.y - inst.icon.height * inst.scale.y := by
  unfold wrapY
  split_ifs <;> simp

lemma wrapStep_of_bg (inst : Instance) (cfg : ParallaxConfig)
    (cx cy lx ly : ℚ) (h : isBackgroundX cfg ∨ isBackgroundY cfg) :
    wrapStep inst cfg cx cy lx ly = inst := by
  unfold wrapStep
  rw [if_neg]
  tauto

lemma wrapStep_x (inst : Instance) (cfg : ParallaxConfig) (cx cy lx ly : ℚ)
    (h : ¬ isBackgroundX cfg ∧ ¬ isBackgroundY cfg) :
    (wrapStep inst cfg cx cy lx ly).x = (wrapX inst cfg cx lx).x := by
  unfold wrapStep
  rw [if_pos h, wrapY_x]

lemma wrapStep_y (inst : Instance) (cfg : ParallaxConfig) (cx cy lx ly : ℚ)
    (h : ¬ isBackgroundX cfg ∧ ¬ isBackgroundY cfg) :
    (wrapStep inst cfg cx cy lx ly).y
      = (wrapY (wrapX inst cfg cx lx) cfg cy ly).y := by
  unfold wrapStep
  rw [if_pos h]

/-- The instance returned by `updateInstance` for a non-ground
configuration: repositioning followed by the wrap step (the bookkeeping
afterwards only touches `oldX`/`oldY`). -/
lemma updateInstance_inst_of_nonground (cA lC : CameraPosition) (inst : Instance)
    (cfg : ParallaxConfig) (cx cy : ℚ) (pA : Option CameraPosition)
    (hg : cfg.ground = false) :
    (updateInstance cA lC inst cfg cx cy pA).inst
      = (let i2 := wrapStep
            (reposition inst cfg cx cy (referenceLastX cA lC pA) (referenceLastY cA lC pA))
            cfg cx cy (referenceLastX cA lC pA) (referenceLastY cA lC pA)
         { i2 with oldX := some i2.x, oldY := some i2.y }) := by
  simp [updateInstance, hg]

/-- The instance returned by `updateInstance` for a ground
configuration: the repositioning block is skipped entirely; only the
wrap step touches the position. -/
lemma updateInstance_inst_of_ground (cA lC : CameraPosition) (inst : Instance)
    (cfg : ParallaxConfig) (cx cy : ℚ) (pA : Option CameraPosition)
    (hg : cfg.ground = true) :
    (updateInstance cA lC inst cfg cx cy pA).inst
      = (let i2 := wrapStep inst cfg cx cy (lC.x.getD 0) (lC.y.getD 0)
         { i2 with oldX := some i2.x, oldY := some i2.y }) := by
  simp [updateInstance, hg]

/-- `updateInstance` in terms of its intermediate post-wrap instance:
the returned instance is the post-wrap instance with refreshed
`oldX`/`oldY`, the `MoveEvent` flag is the position-change test against
the stored previous position, and the configuration is relocated
exactly when the instance moved and is infinite on some axis. -/
lemma updateInstance_spec (cA lC : CameraPosition) (inst : Instance)
    (cfg : ParallaxConfig) (cx cy : ℚ) (pA : Option CameraPosition) :
    ∃ i2 : Instance,
      (updateInstance cA lC inst cfg cx cy pA).inst
          = { i2 with oldX := some i2.x, oldY := some i2.y }
      ∧ (updateInstance cA lC inst cfg cx cy pA).movedEvent
          = decide (i2.oldX ≠ some i2.x ∨ i2.oldY ≠ some i2.y)
      ∧ (updateInstance cA lC inst cfg cx cy pA).config
          = (if decide (i2.oldX ≠ some i2.x ∨ i2.oldY ≠ some i2.y) = true
                ∧ (cfg.infiniteHorizontal = true ∨ cfg.infiniteVertical = true)
             then handleOnRelocated i2 cfg else cfg) := by
  unfold updateInstance
  exact ⟨_, rfl, rfl, rfl⟩

/-- Key characterisation of the post-update x coordinate for a
non-ground, non-background-x instance on a tick where the horizontal
wrap does not fire. -/
lemma updateInstance_x_move (cA lC : CameraPosition) (inst : Instance)
    (cfg : ParallaxConfig) (cx cy : ℚ) (pA : Option CameraPosition)
    (hg : cfg.ground = false) (hs : cfg.horizontalSpeed ≠ 0)
    (hw : cfg.infiniteHorizontal = true →
      cx ≤ inst.x + (cx - referenceLastX cA lC pA) * cfg.horizontalSpeed
             + inst.icon.width * inst.scale.x
      ∧ ((⌊inst.x + (cx - referenceLastX cA lC pA) * cfg.horizontalSpeed
             - inst.icon.width * inst.scale.x / 6⌋ : ℤ) : ℚ) ≤ cx) :
    (updateInstance cA lC inst cfg cx cy pA).inst.x
      = inst.x + (cx - referenceLastX cA lC pA) * cfg.horizontalSpeed := by
  have hbx : ¬ isBackgroundX cfg := fun hb => hs hb.2
  rw [updateInstance_inst_of_nonground cA lC inst cfg cx cy pA hg]
  have hx1 : (reposition inst cfg cx cy
      (referenceLastX cA lC pA) (referenceLastY cA lC pA)).x
      = inst.x + (cx - referenceLastX cA lC pA) * cfg.horizontalSpeed :=
    reposition_x_of_nonbg _ _ _ _ _ _ hbx
  by_cases hby : isBackgroundY cfg
  · simp only []
    rw [wrapStep_of_bg _ _ _ _ _ _ (Or.inr hby)]
    exact hx1
  · simp only []
    rw [wrapStep_x _ _ _ _ _ _ ⟨hbx, hby⟩]
    by_cases hinf : cfg.infiniteHorizontal = true
    · obtain ⟨h1, h2⟩ := hw hinf
      rw [wrapX_of_no_fire]
      · exact hx1
      · rw [hx1, reposition_icon, reposition_scale]; exact h1
      · rw [hx1, reposition_icon, reposition_scale]; exact h2
    · rw [wrapX_of_not_inf _ _ _ _ (by simpa using hinf)]
      exact hx1

/-- The post-update x coordinate of a background-x instance: recentred
on the camera; the wrap block never runs. -/
lemma updateInstance_x_bg (cA lC : CameraPosition) (inst : Instance)
    (cfg : ParallaxConfig) (cx cy : ℚ) (pA : Option CameraPosition)
    (hg : cfg.ground = false) (hs : cfg.horizontalSpeed = 0) :
    (updateInstance cA lC inst cfg cx cy pA).inst.x
      = cx - inst.icon.width * inst.scale.x / 2 := by
  have hbx : isBackgroundX cfg := ⟨hg, hs⟩
  rw [updateInstance_inst_of_nonground cA lC inst cfg cx cy pA hg]
  simp only []
  rw [wrapStep_of_bg _ _ _ _ _ _ (Or.inl hbx)]
  exact reposition_x_of_bg _ _ _ _ _ _ hbx

/-- Entry `i` of the tracked list after one `update` tick. -/
lemma update_tracked_get (st : ParallaxState) (cx cy : ℚ) (i : ℕ) (e : TrackedEntry)
    (h : st.tracked[i]? = some e) :
    (update st cx cy).tracked[i]? = some
      { e with
        inst := (updateInstance st.cameraAnchor st.lastCamPos e.inst e.config cx cy none).inst,
        config := (updateInstance st.cameraAnchor st.lastCamPos e.inst e.config cx cy none).config } := by
  simp [update, List.getElem?_map, h]

lemma update_lastCamPos (st : ParallaxState) (cx cy : ℚ) :
    (update st cx cy).lastCamPos = ⟨some cx, some cy⟩ := rfl

lemma update_cameraAnchor (st : ParallaxState) (cx cy : ℚ) :
    (update st cx cy).cameraAnchor = st.cameraAnchor := rfl

lemma referenceLastX_none (cA : CameraPosition) (lx ly : ℚ) :
    referenceLastX cA ⟨some lx, some ly⟩ none = lx := rfl

/-! ## Claim C1 : velocity accumulation between two consecutive ticks -/

/-- **C1.** For a tracked instance that is not ground, whose
`horizontalSpeed` is `s ≠ 0`, with no camera anchor in effect, two
consecutive `update` calls with camera x `c1` then `c2` leave the
instance's x equal to its x after the first call plus `s * (c2 - c1)`,
provided the horizontal tiling-wrap shift does not fire on the second
tick. -/
theorem parallax_velocity_accumulation
    (st : ParallaxState) (c1 y1 c2 y2 : ℚ) (i : ℕ) (e1 e2 : TrackedEntry)
    (_hAnchor : st.cameraAnchor = ⟨none, none⟩)
    (h1 : (update st c1 y1).tracked[i]? = some e1)
    (h2 : (update (update st c1 y1) c2 y2).tracked[i]? = some e2)
    (hg : e1.config.ground = false)
    (hs : e1.config.horizontalSpeed ≠ 0)
    (hw : e1.config.infiniteHorizontal = true →
      c2 ≤ e1.inst.x + (c2 - c1) * e1.config.horizontalSpeed
             + e1.inst.icon.width * e1.inst.scale.x
      ∧ ((⌊e1.inst.x + (c2 - c1) * e1.config.horizontalSpeed
             - e1.inst.icon.width * e1.inst.scale.x / 6⌋ : ℤ) : ℚ) ≤ c2) :
    e2.inst.x = e1.inst.x + e1.config.horizontalSpeed * (c2 - c1) := by
  have h3 := update_tracked_get (update st c1 y1) c2 y2 i e1 h1
  rw [h2] at h3
  have he2 := Option.some.inj h3
  rw [update_cameraAnchor, update_lastCamPos] at he2
  subst he2
  show (updateInstance st.cameraAnchor ⟨some c1, some y1⟩
      e1.inst e1.config c2 y2 none).inst.x = _
  have hx := updateInstance_x_move st.cameraAnchor ⟨some c1, some y1⟩
      e1.inst e1.config c2 y2 none hg hs
      (by rw [referenceLastX_none]; exact hw)
  rw [referenceLastX_none] at hx
  rw [hx]
  ring

/-- Concrete instance for the C1 witness. -/
def exC1Inst : Instance :=
  { x := 0, y := 0, mapName := none, icon := ⟨50, 50⟩, scale := ⟨1, 1⟩ }

/-- Concrete configuration for the C1 witness. -/
def exC1Cfg : ParallaxConfig := { horizontalSpeed := 2, verticalSpeed := 1 }

/-- Concrete registry state for the C1 witness. -/
def exC1St : ParallaxState :=
  { tracked := [⟨0, exC1Inst, exC1Cfg⟩], lastCamPos := ⟨some 0, some 0⟩,
    cameraAnchor := ⟨none, none⟩, anchorXSet := false, anchorYSet := false,
    errorLog := [] }

/-- The tracked entry after `update(10, 10)` in the C1 witness. -/
def exC1E1 : TrackedEntry :=
  ⟨0, { x := 20, y := 10, mapName := none, icon := ⟨50, 50⟩, scale := ⟨1, 1⟩,
        oldX := some 20, oldY := some 10 }, exC1Cfg⟩

/-- The tracked entry after the further `update(25, 0)` in the C1 witness. -/
def exC1E2 : TrackedEntry :=
  ⟨0, { x := 50, y := 0, mapName := none, icon := ⟨50, 50⟩, scale := ⟨1, 1⟩,
        oldX := some 50, oldY := some 0 }, exC1Cfg⟩

/-- Witness for C1 at a concrete input: camera moves 0 → 10 → 25 with
speed 2, and indeed x moves from 20 to 20 + 2·15 = 50. -/
theorem parallax_velocity_accumulation_witness :
    (update exC1St 10 10).tracked[0]? = some exC1E1 ∧
    (update (update exC1St 10 10) 25 0).tracked[0]? = some exC1E2 ∧
    exC1E2.inst.x = exC1E1.inst.x + exC1E1.config.horizontalSpeed * (25 - 10) := by
  have h1 : (update exC1St 10 10).tracked[0]? = some exC1E1 := by
    norm_num [update, updateInstance, exC1St, exC1Inst, exC1Cfg, exC1E1,
      reposition, wrapStep, wrapX, wrapY, isBackgroundX, isBackgroundY,
      referenceLastX, referenceLastY, handleOnRelocated]
  have h2 : (update (update exC1St 10 10) 25 0).tracked[0]? = some exC1E2 := by
    norm_num [update, updateInstance, exC1St, exC1Inst, exC1Cfg, exC1E1, exC1E2,
      reposition, wrapStep, wrapX, wrapY, isBackgroundX, isBackgroundY,
      referenceLastX, referenceLastY, handleOnRelocated]
  exact ⟨h1, h2,
    parallax_velocity_accumulation exC1St 10 10 25 0 0 exC1E1 exC1E2 rfl h1 h2
      rfl (by norm_num [exC1E1, exC1Cfg])
      (by intro h; simp [exC1E1, exC1Cfg] at h)⟩

/-! ## Claim C2 : the tiling-wrap boundary test -/

/-- **C2.** For a tracked instance with `infiniteHorizontal`, neither
axis in background mode and a camera x move since the stored last
camera x, the wrap test after repositioning uses
`rightEdge = instanceX + iconWidth*scaleX` and
`leftEdge = floor(instanceX - iconWidth*scaleX/6)` (where `instanceX`
is the post-repositioning x): crossing `rightEdge` adds one full
`iconWidth*scaleX`, crossing `leftEdge` subtracts one. -/
theorem parallax_wrap_boundary
    (cA lastCam : CameraPosition) (inst : Instance) (cfg : ParallaxConfig)
    (cx cy lx : ℚ)
    (hl : lastCam.x = some lx)
    (hinf : cfg.infiniteHorizontal = true)
    (hg : cfg.ground = false)
    (hsx : cfg.horizontalSpeed ≠ 0) (hsy : cfg.verticalSpeed ≠ 0)
    (hne : lx ≠ cx)
    (hwpos : 0 < inst.icon.width * inst.scale.x) :
    (cx > inst.x + (cx - lx) * cfg.horizontalSpeed + inst.icon.width * inst.scale.x →
      (updateInstance cA lastCam inst cfg cx cy none).inst.x
        = inst.x + (cx - lx) * cfg.horizontalSpeed + inst.icon.width * inst.scale.x) ∧
    (cx < ((⌊inst.x + (cx - lx) * cfg.horizontalSpeed
              - inst.icon.width * inst.scale.x / 6⌋ : ℤ) : ℚ) →
      (updateInstance cA lastCam inst cfg cx cy none).inst.x
        = inst.x + (cx - lx) * cfg.horizontalSpeed - inst.icon.width * inst.scale.x) := by
  have hbx : ¬ isBackgroundX cfg := fun hb => hsx hb.2
  have hby : ¬ isBackgroundY cfg := fun hb => hsy hb.2
  have hrefl : referenceLastX cA lastCam none = lx := by
    simp [referenceLastX, hl]
  have hx1 : (reposition inst cfg cx cy
      (referenceLastX cA lastCam none) (referenceLastY cA lastCam none)).x
      = inst.x + (cx - lx) * cfg.horizontalSpeed := by
    rw [reposition_x_of_nonbg _ _ _ _ _ _ hbx, hrefl]
  have hXx : (updateInstance cA lastCam inst cfg cx cy none).inst.x
      = (wrapX (reposition inst cfg cx cy
          (referenceLastX cA lastCam none) (referenceLastY cA lastCam none))
          cfg cx (referenceLastX cA lastCam none)).x := by
    rw [updateInstance_inst_of_nonground _ _ _ _ _ _ _ hg]
    simp only []
    rw [wrapStep_x _ _ _ _ _ _ ⟨hbx, hby⟩]
  have hcond : cfg.infiniteHorizontal = true ∧ referenceLastX cA lastCam none ≠ cx :=
    ⟨hinf, by rw [hrefl]; exact hne⟩
  constructor
  · intro hgt
    rw [hXx]
    unfold wrapX
    rw [if_pos hcond, if_pos (by
      rw [hx1, reposition_icon, reposition_scale]; exact hgt)]
    simp only []
    rw [hx1, reposition_icon, reposition_scale]
  · intro hlt
    rw [hXx]
    unfold wrapX
    have hfloor : ((⌊inst.x + (cx - lx) * cfg.horizontalSpeed
        - inst.icon.width * inst.scale.x / 6⌋ : ℤ) : ℚ)
        ≤ inst.x + (cx - lx) * cfg.horizontalSpeed
            - inst.icon.width * inst.scale.x / 6 := Int.floor_le _
    rw [if_pos hcond, if_neg (by
      rw [hx1, reposition_icon, reposition_scale]
      intro hgt
      have h2 : cx < inst.x + (cx - lx) * cfg.horizontalSpeed
          - inst.icon.width * inst.scale.x / 6 := lt_of_lt_of_le hlt hfloor
      linarith), if_pos (by
      rw [hx1, reposition_icon, reposition_scale]; exact hlt)]
    simp only []
    rw [hx1, reposition_icon, reposition_scale]

/-- Concrete configuration for the C2 witness. -/
def exC2Cfg : ParallaxConfig :=
  { horizontalSpeed := 1, verticalSpeed := 1, infiniteHorizontal := true }

/-- Instance whose post-repositioning x is `100` when the camera moves
0 → 160 (forward-wrap case of the C2 witness). -/
def exC2InstA : Instance :=
  { x := -60, y := 0, mapName := none, icon := ⟨50, 50⟩, scale := ⟨1, 1⟩ }

/-- Instance whose post-repositioning x is `100` when the camera moves
0 → 90 (backward-wrap case of the C2 witness). -/
def exC2InstB : Instance :=
  { x := 10, y := 0, mapName := none, icon := ⟨50, 50⟩, scale := ⟨1, 1⟩ }

/-- Witness for C2 at the claim's concrete numbers: with the instance
at x=100 after repositioning, iconWidth 50 and scale 1, camera
x = 160 > 150 yields x = 150, and camera x = 90 < floor(100 - 50/6) = 91
yields x = 50. -/
theorem parallax_wrap_boundary_witness :
    (updateInstance ⟨none, none⟩ ⟨some 0, some 0⟩ exC2InstA exC2Cfg 160 0 none).inst.x = 150 ∧
    (updateInstance ⟨none, none⟩ ⟨some 0, some 0⟩ exC2InstB exC2Cfg 90 0 none).inst.x = 50 := by
  constructor
  · have h := (parallax_wrap_boundary ⟨none, none⟩ ⟨some 0, some 0⟩ exC2InstA exC2Cfg
        160 0 0 rfl rfl rfl (by norm_num [exC2Cfg]) (by norm_num [exC2Cfg])
        (by norm_num) (by norm_num [exC2InstA])).1
      (by norm_num [exC2InstA, exC2Cfg])
    rw [h]
    norm_num [exC2InstA, exC2Cfg]
  · have h := (parallax_wrap_boundary ⟨none, none⟩ ⟨some 0, some 0⟩ exC2InstB exC2Cfg
        90 0 0 rfl rfl rfl (by norm_num [exC2Cfg]) (by norm_num [exC2Cfg])
        (by norm_num) (by norm_num [exC2InstB])).2
      (by norm_num [exC2InstB, exC2Cfg])
    rw [h]
    norm_num [exC2InstB, exC2Cfg]

/-! ## Claim C3 : background axis invariant -/

/-- **C3.** For a tracked instance with `horizontalSpeed = 0` and
`ground` false, after every `update(cameraX, cameraY)` tick the
instance's x equals `cameraX - iconWidth/2` (at scale 1). -/
theorem parallax_background_centered
    (st : ParallaxState) (cx cy : ℚ) (i : ℕ) (e e' : TrackedEntry)
    (h : st.tracked[i]? = some e)
    (h' : (update st cx cy).tracked[i]? = some e')
    (hs : e.config.horizontalSpeed = 0)
    (hg : e.config.ground = false)
    (hsc : e.inst.scale.x = 1) :
    e'.inst.x = cx - e.inst.icon.width / 2 := by
  have h3 := update_tracked_get st cx cy i e h
  rw [h'] at h3
  have he := Option.some.inj h3
  subst he
  show (updateInstance st.cameraAnchor st.lastCamPos e.inst e.config cx cy none).inst.x = _
  rw [updateInstance_x_bg _ _ _ _ _ _ _ hg hs, hsc, mul_one]

/-- Concrete instance for the C3 witness. -/
def exC3Inst : Instance :=
  { x := 12, y := 3, mapName := none, icon := ⟨50, 40⟩, scale := ⟨1, 1⟩ }

/-- Concrete configuration for the C3 witness (background x axis). -/
def exC3Cfg : ParallaxConfig := { horizontalSpeed := 0, verticalSpeed := 1 }

/-- Concrete registry state for the C3 witness. -/
def exC3St : ParallaxState :=
  { tracked := [⟨0, exC3Inst, exC3Cfg⟩], lastCamPos := ⟨some 0, some 0⟩,
    cameraAnchor := ⟨none, none⟩, anchorXSet := false, anchorYSet := false,
    errorLog := [] }

/-- The tracked entry after `update(30, 7)` in the C3 witness:
x = 30 - 50/2 = 5. -/
def exC3E : TrackedEntry :=
  ⟨0, { x := 5, y := 10, mapName := none, icon := ⟨50, 40⟩, scale := ⟨1, 1⟩,
        oldX := some 5, oldY := some 10 }, exC3Cfg⟩

/-- Witness for C3 at a concrete input. -/
theorem parallax_background_centered_witness :
    (update exC3St 30 7).tracked[0]? = some exC3E ∧
    exC3E.inst.x = 30 - exC3Inst.icon.width / 2 := by
  have h' : (update exC3St 30 7).tracked[0]? = some exC3E := by
    norm_num [update, updateInstance, exC3St, exC3Inst, exC3Cfg, exC3E,
      reposition, wrapStep, wrapX, wrapY, isBackgroundX, isBackgroundY,
      referenceLastX, referenceLastY, handleOnRelocated]
  exact ⟨h', parallax_background_centered exC3St 30 7 0 ⟨0, exC3Inst, exC3Cfg⟩
    exC3E rfl h' rfl rfl rfl⟩

/-! ## Claim C4 : the camera anchor and update ticks

`update` calls `updateInstance` without an anchor argument, so the
anchor branch is never taken on a tick; anchors only act at
registration, through `init`. -/

/-- Concrete instance for the C4 counterexample. -/
def exC4Inst : Instance :=
  { x := 0, y := 0, mapName := none, icon := ⟨50, 50⟩, scale := ⟨1, 1⟩ }

/-- Concrete configuration for the C4 counterexample. -/
def exC4Cfg : ParallaxConfig := { horizontalSpeed := 1, verticalSpeed := 1 }

/-- Concrete registry state for C4: global anchor x = 5 set, stored
last camera x = 10. -/
def exC4St : ParallaxState :=
  { tracked := [⟨0, exC4Inst, exC4Cfg⟩], lastCamPos := ⟨some 10, some 0⟩,
    cameraAnchor := ⟨some 5, none⟩, anchorXSet := true, anchorYSet := false,
    errorLog := [] }

/-- The tracked entry after `update(20, 0)` on `exC4St`: the delta is
computed from the stored last camera x (10), not the anchor (5). -/
def exC4E : TrackedEntry :=
  ⟨0, { x := 10, y := 0, mapName := none, icon := ⟨50, 50⟩, scale := ⟨1, 1⟩,
        oldX := some 10, oldY := some 0 }, exC4Cfg⟩

/-- **C4 counterexample.** With the global anchor set to x = 5, stored
last camera x = 10 and speed 1, `update(20, 0)` moves the instance to
x = 0 + (20 - 10)·1 = 10, not to the x = 0 + (20 - 5)·1 = 15 the claim
requires: the anchor is not used as the reference on an update tick. -/
theorem parallax_anchor_tick_cex :
    exC4St.anchorXSet = true ∧ exC4St.cameraAnchor.x = some 5
    ∧ exC4St.lastCamPos.x = some 10
    ∧ (update exC4St 20 0).tracked[0]? = some exC4E
    ∧ exC4E.inst.x = 10
    ∧ exC4Inst.x + (20 - 5) * exC4Cfg.horizontalSpeed = 15
    ∧ (10 : ℚ) ≠ 15 := by
  refine ⟨rfl, rfl, rfl, ?_, rfl, by norm_num [exC4Inst, exC4Cfg], by norm_num⟩
  norm_num [update, updateInstance, exC4St, exC4Inst, exC4Cfg, exC4E,
    reposition, wrapStep, wrapX, wrapY, isBackgroundX, isBackgroundY,
    referenceLastX, referenceLastY, handleOnRelocated]

/-- **C4 amended.** Update ticks ignore the camera anchor entirely:
the tracked list after `update` is the same whatever the global anchor
holds, and a non-ground, non-background, non-tiling instance's delta is
always computed from the stored last camera position. The anchor takes
effect only at registration time (see C10). -/
theorem parallax_anchor_tick_amended
    (st : ParallaxState) (v w : Option ℚ) (cx cy : ℚ) :
    ((update { st with cameraAnchor := ⟨v, w⟩, anchorXSet := true, anchorYSet := true }
        cx cy).tracked
      = (update st cx cy).tracked)
    ∧ (∀ (i : ℕ) (e e' : TrackedEntry),
        st.tracked[i]? = some e →
        (update st cx cy).tracked[i]? = some e' →
        e.config.ground = false →
        e.config.horizontalSpeed ≠ 0 →
        e.config.infiniteHorizontal = false →
        e'.inst.x = e.inst.x + (cx - st.lastCamPos.x.getD 0) * e.config.horizontalSpeed) := by
  constructor
  · simp [update, updateInstance, referenceLastX, referenceLastY]
  · intro i e e' h h' hg hs hinf
    have h3 := update_tracked_get st cx cy i e h
    rw [h'] at h3
    have he := Option.some.inj h3
    subst he
    show (updateInstance st.cameraAnchor st.lastCamPos e.inst e.config cx cy none).inst.x = _
    have hx := updateInstance_x_move st.cameraAnchor st.lastCamPos e.inst e.config cx cy none
      hg hs (by intro hh; rw [hinf] at hh; cases hh)
    exact hx

/-- Witness for the amended C4 at a concrete input. -/
theorem parallax_anchor_tick_amended_witness :
    (update exC4St 20 0).tracked[0]? = some exC4E ∧
    exC4E.inst.x = exC4Inst.x + (20 - exC4St.lastCamPos.x.getD 0) * exC4Cfg.horizontalSpeed := by
  have h' : (update exC4St 20 0).tracked[0]? = some exC4E := by
    norm_num [update, updateInstance, exC4St, exC4Inst, exC4Cfg, exC4E,
      reposition, wrapStep, wrapX, wrapY, isBackgroundX, isBackgroundY,
      referenceLastX, referenceLastY, handleOnRelocated]
  exact ⟨h', (parallax_anchor_tick_amended exC4St (some 99) none 20 0).2 0
    ⟨0, exC4Inst, exC4Cfg⟩ exC4E rfl h' rfl (by norm_num [exC4Cfg]) rfl⟩

/-! ## Claim C7 : registration is idempotent per identity -/

/-- **C7.** `add` with an already-registered instance is a silent no-op:
the whole registry state (tracked set, configuration records, clones,
error log) is unchanged. -/
theorem parallax_add_idempotent
    (st : ParallaxState) (camPos : CameraPosition) (n : ℕ)
    (inst : Instance) (cfg : ParallaxConfig)
    (h : st.tracked.any (fun e => e.id == n) = true) :
    add st camPos (some (n, inst)) (ConfigArg.valid cfg) = st := by
  simp [add, h]

/-- Concrete instance for the C7 witness. -/
def exC7Inst : Instance :=
  { x := 4, y := 5, mapName := some "map1", icon := ⟨32, 32⟩, scale := ⟨1, 1⟩ }

/-- Concrete configuration for the C7 witness. -/
def exC7Cfg : ParallaxConfig := { horizontalSpeed := 1/2, verticalSpeed := 1 }

/-- Concrete registry state for the C7 witness: id 7 already tracked. -/
def exC7St : ParallaxState :=
  { tracked := [⟨7, exC7Inst, exC7Cfg⟩], lastCamPos := ⟨some 0, some 0⟩,
    cameraAnchor := ⟨none, none⟩, anchorXSet := false, anchorYSet := false,
    errorLog := [] }

/-- Witness for C7 at a concrete input. -/
theorem parallax_add_idempotent_witness :
    add exC7St ⟨some 3, some 4⟩ (some (7, exC7Inst)) (ConfigArg.valid exC7Cfg) = exC7St :=
  parallax_add_idempotent exC7St ⟨some 3, some 4⟩ 7 exC7Inst exC7Cfg (by rfl)

/-! ## Claim C8 : error paths of `add` -/

/-- **C8.** `add` with no instance, or with a non-object configuration
argument, appends exactly one error message to the log and leaves every
other piece of state (tracked set, weak-map records, camera baseline,
anchor) unchanged; the function is total, so no exception escapes. -/
theorem parallax_add_error_paths
    (st : ParallaxState) (camPos : CameraPosition) (arg : ConfigArg)
    (p : Nat × Instance) :
    add st camPos none arg
      = { st with errorLog := st.errorLog ++ ["No pInstance passed!"] }
    ∧ add st camPos (some p) ConfigArg.invalid
      = { st with errorLog := st.errorLog ++ ["No pConfig passed or invalid type found!"] } := by
  refine ⟨rfl, ?_⟩
  rcases p with ⟨n, inst⟩
  rfl

/-! ## Claim C5 : ground instances -/

/-- **C5.** A ground instance is placed once, at registration, at
`(cameraX - iconWidth*scaleX/2, groundY)` on the configured ground map;
on every subsequent tick the repositioning block is skipped entirely,
so only the tiling-wrap step may change its position (and with no
infinite axis the position does not change at all). -/
theorem parallax_ground_behavior
    (st : ParallaxState) (camX camY : ℚ) (n : ℕ) (inst : Instance)
    (cfg : ParallaxConfig)
    (hfresh : (st.tracked.any fun e => e.id == n) = false)
    (hg : cfg.ground = true) :
    (∃ e, (add st ⟨some camX, some camY⟩ (some (n, inst)) (ConfigArg.valid cfg)).tracked
        = st.tracked ++ [e]
      ∧ e.inst.x = camX - inst.icon.width * inst.scale.x / 2
      ∧ e.inst.y = cfg.groundY
      ∧ e.inst.mapName = cfg.groundMapname)
    ∧ (∀ (cA lC : CameraPosition) (inst2 : Instance) (cfg2 : ParallaxConfig) (cx cy : ℚ),
        cfg2.ground = true →
        ((updateInstance cA lC inst2 cfg2 cx cy none).inst.x = inst2.x
           ∨ (updateInstance cA lC inst2 cfg2 cx cy none).inst.x
               = inst2.x + inst2.icon.width * inst2.scale.x
           ∨ (updateInstance cA lC inst2 cfg2 cx cy none).inst.x
               = inst2.x - inst2.icon.width * inst2.scale.x)
        ∧ ((updateInstance cA lC inst2 cfg2 cx cy none).inst.y = inst2.y
           ∨ (updateInstance cA lC inst2 cfg2 cx cy none).inst.y
               = inst2.y + inst2.icon.height * inst2.scale.y
           ∨ (updateInstance cA lC inst2 cfg2 cx cy none).inst.y
               = inst2.y - inst2.icon.height * inst2.scale.y)
        ∧ (cfg2.infiniteHorizontal = false →
            (updateInstance cA lC inst2 cfg2 cx cy none).inst.x = inst2.x)
        ∧ (cfg2.infiniteVertical = false →
            (updateInstance cA lC inst2 cfg2 cx cy none).inst.y = inst2.y)) := by
  constructor
  · simp only [add, hfresh, Bool.false_eq_true, if_false]
    refine ⟨_, rfl, ?_, ?_, ?_⟩ <;>
      simp [init, hg]
  · intro cA lC inst2 cfg2 cx cy hg2
    have hbx : ¬ isBackgroundX cfg2 := by
      intro hb
      have h1 : cfg2.ground = false := hb.1
      rw [hg2] at h1
      cases h1
    have hby : ¬ isBackgroundY cfg2 := by
      intro hb
      have h1 : cfg2.ground = false := hb.1
      rw [hg2] at h1
      cases h1
    have hinst := updateInstance_inst_of_ground cA lC inst2 cfg2 cx cy none hg2
    refine ⟨?_, ?_, ?_, ?_⟩
    · rw [hinst]
      simp only []
      rw [wrapStep_x _ _ _ _ _ _ ⟨hbx, hby⟩]
      exact wrapX_x_cases inst2 cfg2 cx (lC.x.getD 0)
    · rw [hinst]
      simp only []
      rw [wrapStep_y _ _ _ _ _ _ ⟨hbx, hby⟩]
      rcases wrapY_y_cases (wrapX inst2 cfg2 cx (lC.x.getD 0)) cfg2 cy (lC.y.getD 0)
        with h | h | h <;> rw [h] <;>
        simp only [wrapX_y, wrapX_icon, wrapX_scale] <;> tauto
    · intro hnoH
      rw [hinst]
      simp only []
      rw [wrapStep_x _ _ _ _ _ _ ⟨hbx, hby⟩, wrapX_of_not_inf _ _ _ _ hnoH]
    · intro hnoV
      rw [hinst]
      simp only []
      rw [wrapStep_y _ _ _ _ _ _ ⟨hbx, hby⟩, wrapY_of_not_inf _ _ _ _ hnoV, wrapX_y]

/-- Concrete instance for the C5 witness. -/
def exC5Inst : Instance :=
  { x := 7, y := 8, mapName := some "town", icon := ⟨64, 64⟩, scale := ⟨1, 1⟩ }

/-- Concrete ground configuration for the C5 witness. -/
def exC5Cfg : ParallaxConfig :=
  { horizontalSpeed := 1, verticalSpeed := 1, ground := true,
    groundY := 200, groundMapname := some "ground-map" }

/-- Concrete registry state for the C5 witness. -/
def exC5St : ParallaxState :=
  { tracked := [], lastCamPos := ⟨none, none⟩,
    cameraAnchor := ⟨none, none⟩, anchorXSet := false, anchorYSet := false,
    errorLog := [] }

/-- Witness for C5 at a concrete input: registration places the ground
instance, and a later tick leaves a non-tiling ground instance
untouched. -/
theorem parallax_ground_behavior_witness :
    (∃ e, (add exC5St ⟨some 100, some 0⟩ (some (1, exC5Inst))
          (ConfigArg.valid exC5Cfg)).tracked = exC5St.tracked ++ [e]
      ∧ e.inst.x = 100 - exC5Inst.icon.width * exC5Inst.scale.x / 2
      ∧ e.inst.y = exC5Cfg.groundY
      ∧ e.inst.mapName = exC5Cfg.groundMapname)
    ∧ (updateInstance ⟨none, none⟩ ⟨some 0, some 0⟩ exC5Inst exC5Cfg 50 60 none).inst.x
        = exC5Inst.x := by
  have h := parallax_ground_behavior exC5St 100 0 1 exC5Inst exC5Cfg rfl rfl
  exact ⟨h.1, (h.2 ⟨none, none⟩ ⟨some 0, some 0⟩ exC5Inst exC5Cfg 50 60 rfl).2.2.1 rfl⟩

/-! ## Claim C6 : clone offset invariant -/

/-- **C6.** After any tick in which the parent moved, every tiling
clone sits at the parent's position plus its stored relative offset;
the stored offsets are never changed by a tick, and at creation they
are plus/minus one scaled icon dimension on the tiled axis and zero on
the other. (Clones exist only when the corresponding `infinite*` flag
was toggled, which the two presence hypotheses record.) -/
theorem parallax_clone_offsets
    (cA lC : CameraPosition) (inst : Instance) (cfg : ParallaxConfig) (cx cy : ℚ)
    (hH : cfg.horizontalChildren ≠ none → cfg.infiniteHorizontal = true)
    (hV : cfg.verticalChildren ≠ none → cfg.infiniteVertical = true) :
    ((updateInstance cA lC inst cfg cx cy none).movedEvent = true →
      (∀ c ∈ ((updateInstance cA lC inst cfg cx cy none).config.horizontalChildren.getD []),
        c.x - (updateInstance cA lC inst cfg cx cy none).inst.x = c.relativeX
        ∧ c.y - (updateInstance cA lC inst cfg cx cy none).inst.y = c.relativeY)
      ∧ (∀ c ∈ ((updateInstance cA lC inst cfg cx cy none).config.verticalChildren.getD []),
        c.x - (updateInstance cA lC inst cfg cx cy none).inst.x = c.relativeX
        ∧ c.y - (updateInstance cA lC inst cfg cx cy none).inst.y = c.relativeY))
    ∧ ((updateInstance cA lC inst cfg cx cy none).config.horizontalChildren.map
          (List.map fun c => (c.relativeX, c.relativeY))
        = cfg.horizontalChildren.map (List.map fun c => (c.relativeX, c.relativeY))
      ∧ (updateInstance cA lC inst cfg cx cy none).config.verticalChildren.map
          (List.map fun c => (c.relativeX, c.relativeY))
        = cfg.verticalChildren.map (List.map fun c => (c.relativeX, c.relativeY)))
    ∧ (∀ c ∈ ((toggleInfiniteHorizontal inst cfg).horizontalChildren.getD []),
        (c.relativeX = inst.icon.width * inst.scale.x
          ∨ c.relativeX = -(inst.icon.width * inst.scale.x)) ∧ c.relativeY = 0)
    ∧ (∀ c ∈ ((toggleInfiniteVertical inst cfg).verticalChildren.getD []),
        c.relativeX = 0 ∧ (c.relativeY = inst.icon.height * inst.scale.y
          ∨ c.relativeY = -(inst.icon.height * inst.scale.y))) := by
  obtain ⟨i2, hi, hm, hc⟩ := updateInstance_spec cA lC inst cfg cx cy none
  refine ⟨?_, ?_, ?_, ?_⟩
  · intro hmoved
    rw [hm] at hmoved
    constructor
    · intro c hcmem
      rw [hc] at hcmem
      by_cases hHC : cfg.horizontalChildren = none
      · split_ifs at hcmem <;> simp [handleOnRelocated, hHC] at hcmem
      · have hinfH := hH hHC
        rw [if_pos ⟨hmoved, Or.inl hinfH⟩] at hcmem
        obtain ⟨l, hl⟩ := Option.ne_none_iff_exists'.mp hHC
        simp only [handleOnRelocated, hl, Option.map_some', Option.getD_some,
          repositionChildren] at hcmem
        obtain ⟨c0, _, rfl⟩ := List.mem_map.1 hcmem
        rw [hi]
        constructor <;> simp
    · intro c hcmem
      rw [hc] at hcmem
      by_cases hVC : cfg.verticalChildren = none
      · split_ifs at hcmem <;> simp [handleOnRelocated, hVC] at hcmem
      · have hinfV := hV hVC
        rw [if_pos ⟨hmoved, Or.inr hinfV⟩] at hcmem
        obtain ⟨l, hl⟩ := Option.ne_none_iff_exists'.mp hVC
        simp only [handleOnRelocated, hl, Option.map_some', Option.getD_some,
          repositionChildren] at hcmem
        obtain ⟨c0, _, rfl⟩ := List.mem_map.1 hcmem
        rw [hi]
        constructor <;> simp
  · rw [hc]
    split_ifs with hcond
    · constructor
      · simp only [handleOnRelocated]
        cases cfg.horizontalChildren with
        | none => simp
        | some l => simp [repositionChildren, List.map_map, Function.comp]
      · simp only [handleOnRelocated]
        cases cfg.verticalChildren with
        | none => simp
        | some l => simp [repositionChildren, List.map_map, Function.comp]
    · exact ⟨rfl, rfl⟩
  · intro c hcmem
    simp only [toggleInfiniteHorizontal, Option.getD_some, List.mem_cons,
      List.mem_singleton, List.not_mem_nil, or_false] at hcmem
    rcases hcmem with rfl | rfl
    · constructor
      · right
        show inst.x - inst.icon.width * inst.scale.x - inst.x
          = -(inst.icon.width * inst.scale.x)
        ring
      · show inst.y - inst.y = 0
        ring
    · constructor
      · left
        show inst.x + inst.icon.width * inst.scale.x - inst.x
          = inst.icon.width * inst.scale.x
        ring
      · show inst.y - inst.y = 0
        ring
  · intro c hcmem
    simp only [toggleInfiniteVertical, Option.getD_some, List.mem_cons,
      List.mem_singleton, List.not_mem_nil, or_false] at hcmem
    rcases hcmem with rfl | rfl
    · constructor
      · show inst.x - inst.x = 0
        ring
      · right
        show inst.y - inst.icon.height * inst.scale.y - inst.y
          = -(inst.icon.height * inst.scale.y)
        ring
    · constructor
      · show inst.x - inst.x = 0
        ring
      · left
        show inst.y + inst.icon.height * inst.scale.y - inst.y
          = inst.icon.height * inst.scale.y
        ring

/-- Concrete instance for the C6 witness. -/
def exC6Inst : Instance :=
  { x := 0, y := 0, mapName := none, icon := ⟨50, 50⟩, scale := ⟨1, 1⟩ }

/-- Base configuration for the C6 witness, before clone creation. -/
def exC6CfgBase : ParallaxConfig :=
  { horizontalSpeed := 1, verticalSpeed := 1, infiniteHorizontal := true }

/-- Configuration for the C6 witness with the horizontal clones
spawned. -/
def exC6Cfg : ParallaxConfig := toggleInfiniteHorizontal exC6Inst exC6CfgBase

/-- Witness for C6 at a concrete input: the parent moves on the tick,
and both horizontal clones end at the parent's position plus their
stored creation-time offsets. -/
theorem parallax_clone_offsets_witness :
    (updateInstance ⟨none, none⟩ ⟨some 0, some 0⟩ exC6Inst exC6Cfg 10 0 none).movedEvent = true
    ∧ (∀ c ∈ ((updateInstance ⟨none, none⟩ ⟨some 0, some 0⟩
          exC6Inst exC6Cfg 10 0 none).config.horizontalChildren.getD []),
        c.x - (updateInstance ⟨none, none⟩ ⟨some 0, some 0⟩
          exC6Inst exC6Cfg 10 0 none).inst.x = c.relativeX
        ∧ c.y - (updateInstance ⟨none, none⟩ ⟨some 0, some 0⟩
          exC6Inst exC6Cfg 10 0 none).inst.y = c.relativeY) := by
  have hm : (updateInstance ⟨none, none⟩ ⟨some 0, some 0⟩
      exC6Inst exC6Cfg 10 0 none).movedEvent = true := by
    norm_num [updateInstance, exC6Inst, exC6Cfg, exC6CfgBase,
      toggleInfiniteHorizontal, reposition, wrapStep, wrapX, wrapY,
      isBackgroundX, isBackgroundY, referenceLastX, referenceLastY,
      handleOnRelocated]
    exact Or.inl (fun h => Option.noConfusion h)
  exact ⟨hm, ((parallax_clone_offsets ⟨none, none⟩ ⟨some 0, some 0⟩
    exC6Inst exC6Cfg 10 0 (fun _ => rfl) (fun hne => absurd rfl hne)).1 hm).1⟩

/-! ## Claim C10 : anchor precedence at registration is JS truthiness -/

lemma anchorOverride_truthy (g p fb : ℚ) (hg : g ≠ 0) :
    anchorOverride (some g) (some p) fb = g := by
  simp [anchorOverride, jsOr, jsTruthy, hg]

lemma anchorOverride_zero (p fb : ℚ) :
    anchorOverride (some 0) (some p) fb = p := by
  simp [anchorOverride, jsOr, jsTruthy]

/-- **C10.** At registration, with both a global camera anchor x and a
per-instance `cameraAnchorX` present, the `getAnchorX() || pAnchor.x`
expression makes the global anchor win; a global anchor equal to
exactly 0 is falsy and is skipped in favour of the per-instance
anchor.  Stated on `add` for a fresh, non-ground, non-tiling,
moving-x instance. -/
theorem parallax_anchor_precedence
    (st : ParallaxState) (camX camY g p : ℚ) (n : ℕ) (inst : Instance)
    (cfg : ParallaxConfig)
    (hfresh : (st.tracked.any fun e => e.id == n) = false)
    (hanchor : st.cameraAnchor.x = some g)
    (hinstAnchor : cfg.cameraAnchorX = some p)
    (hg : cfg.ground = false)
    (hs : cfg.horizontalSpeed ≠ 0)
    (hinf : cfg.infiniteHorizontal = false) :
    ∃ e, (add st ⟨some camX, some camY⟩ (some (n, inst)) (ConfigArg.valid cfg)).tracked
        = st.tracked ++ [e]
      ∧ (g ≠ 0 → e.inst.x = inst.x + (camX - g) * cfg.horizontalSpeed)
      ∧ (g = 0 → e.inst.x = inst.x + (camX - p) * cfg.horizontalSpeed) := by
  simp only [add, hfresh, Bool.false_eq_true, if_false]
  refine ⟨_, rfl, ?_, ?_⟩ <;> intro hgz <;>
    simp only [init, hg, Bool.false_eq_true, if_false] <;>
    rw [updateInstance_x_move _ _ _ _ _ _ _ hg hs
      (by intro hh; rw [hinf] at hh; cases hh)] <;>
    simp only [referenceLastX, hanchor, hinstAnchor]
  · rw [anchorOverride_truthy _ _ _ hgz]
  · rw [hgz, anchorOverride_zero]

/-- Concrete instance for the C10 witness. -/
def exC10Inst : Instance :=
  { x := 2, y := 3, mapName := some "m", icon := ⟨50, 50⟩, scale := ⟨1, 1⟩ }

/-- Configuration with a per-instance anchor x = 7 for the C10 witness. -/
def exC10Cfg : ParallaxConfig :=
  { horizontalSpeed := 1, verticalSpeed := 1, cameraAnchorX := some 7 }

/-- Registry state with global anchor x = 3 for the C10 witness. -/
def exC10StA : ParallaxState :=
  { tracked := [], lastCamPos := ⟨some 0, some 0⟩,
    cameraAnchor := ⟨some 3, none⟩, anchorXSet := true, anchorYSet := false,
    errorLog := [] }

/-- Registry state with global anchor x = 0 for the C10 witness. -/
def exC10StB : ParallaxState :=
  { tracked := [], lastCamPos := ⟨some 0, some 0⟩,
    cameraAnchor := ⟨some 0, none⟩, anchorXSet := true, anchorYSet := false,
    errorLog := [] }

/-- Witness for C10 at concrete inputs: a truthy global anchor (3) and
a falsy one (0), both with a per-instance anchor (7). -/
theorem parallax_anchor_precedence_witness :
    (∃ e, (add exC10StA ⟨some 20, some 0⟩ (some (0, exC10Inst))
          (ConfigArg.valid exC10Cfg)).tracked = exC10StA.tracked ++ [e]
      ∧ ((3 : ℚ) ≠ 0 → e.inst.x = exC10Inst.x + (20 - 3) * exC10Cfg.horizontalSpeed)
      ∧ ((3 : ℚ) = 0 → e.inst.x = exC10Inst.x + (20 - 7) * exC10Cfg.horizontalSpeed))
    ∧ (∃ e, (add exC10StB ⟨some 20, some 0⟩ (some (0, exC10Inst))
          (ConfigArg.valid exC10Cfg)).tracked = exC10StB.tracked ++ [e]
      ∧ ((0 : ℚ) ≠ 0 → e.inst.x = exC10Inst.x + (20 - 0) * exC10Cfg.horizontalSpeed)
      ∧ ((0 : ℚ) = 0 → e.inst.x = exC10Inst.x + (20 - 7) * exC10Cfg.horizontalSpeed)) :=
  ⟨parallax_anchor_precedence exC10StA 20 0 3 7 0 exC10Inst exC10Cfg rfl rfl rfl rfl
      (by norm_num [exC10Cfg]) rfl,
   parallax_anchor_precedence exC10StB 20 0 0 7 0 exC10Inst exC10Cfg rfl rfl rfl rfl
      (by norm_num [exC10Cfg]) rfl⟩

/-! ## Claim C9 : `Layer.updateHorizontalSpeed` / `updateVerticalSpeed`

Embedding of the `Layer` class from `src/layer.mjs` (the revision the
claim cites), plus, for comparison, the later TypeScript `Layer`
revision which stores the sets at `this.config` and writes
`parallaxInfo.horizontalSpeed = pHorizontalSpeed`. -/

namespace LayerMjs

/-- The old-format per-instance parallax info record (`x`/`y`
multipliers) mutated by the bulk speed setters. -/
structure ParallaxInfo where
  x : ℚ
  y : ℚ
deriving Repr, DecidableEq

/-- A JavaScript runtime error raised by the embedded code. -/
inductive JsRuntimeError where
  | typeError (msg : String)
deriving Repr, DecidableEq

/-- The state of a `Layer` from `src/layer.mjs`: its `config` record
(speeds, plane) together with the parallax-info records of the
instances and backgrounds it registered. -/
structure LayerState where
  horizontalSpeed : ℚ
  verticalSpeed : ℚ
  plane : ℚ
  instanceInfos : List ParallaxInfo
  backgroundInfos : List ParallaxInfo
deriving Repr, DecidableEq

/-- `updateHorizontalSpeed(pHorizontalSpeed, pUpdateLayerConfigOnly)`
from `src/layer.mjs`, called with a numeric speed (so the
`inValidHorizontal` guard is false).  `this.config.horizontalSpeed` is
assigned first.  When `pUpdateLayerConfigOnly` is falsy the source then
evaluates `this.instances.forEach(...)`; the `Layer` class has no
`instances` property (the sets live at `this.config.instances` /
`this.config.backgrounds`), so `this.instances` is `undefined` and the
call raises a `TypeError` before any per-instance configuration record
is touched.  (Were the loop reachable, its body assigns
`parallaxInfo.x = pVerticalSpeed`, a name not in scope in
`updateHorizontalSpeed`, which would raise a `ReferenceError` rather
than write the new horizontal speed.)  The partially mutated layer
state is returned together with the raised error. -/
def updateHorizontalSpeed (l : LayerState) (pHorizontalSpeed : ℚ)
    (pUpdateLayerConfigOnly : Bool) : LayerState × Option JsRuntimeError :=
  let l1 := { l with horizontalSpeed := pHorizontalSpeed }
  if pUpdateLayerConfigOnly then (l1, none)
  else (l1, some (JsRuntimeError.typeError "this.instances is undefined"))

/-- `updateVerticalSpeed(pVerticalSpeed, pUpdateLayerConfigOnly)` from
`src/layer.mjs`: same shape; it too iterates the nonexistent
`this.instances` / `this.backgrounds` properties, raising a
`TypeError` before any record is written. -/
def updateVerticalSpeed (l : LayerState) (pVerticalSpeed : ℚ)
    (pUpdateLayerConfigOnly : Bool) : LayerState × Option JsRuntimeError :=
  let l1 := { l with verticalSpeed := pVerticalSpeed }
  if pUpdateLayerConfigOnly then (l1, none)
  else (l1, some (JsRuntimeError.typeError "this.instances is undefined"))

end LayerMjs

namespace LayerTs

/-- The state of the later TypeScript `Layer` revision. -/
structure LayerState where
  horizontalSpeed : ℚ
  verticalSpeed : ℚ
  plane : ℚ
  instanceInfos : List ParallaxConfig
  backgroundInfos : List ParallaxConfig
deriving Repr, DecidableEq

/-- `updateHorizontalSpeed` of the TypeScript `Layer`: iterates
`this.config.instances` and `this.config.backgrounds` and writes
`parallaxInfo.horizontalSpeed = pHorizontalSpeed` on every record. -/
def updateHorizontalSpeed (l : LayerState) (s : ℚ) (pUpdateLayerConfigOnly : Bool) :
    LayerState :=
  let l1 := { l with horizontalSpeed := s }
  if pUpdateLayerConfigOnly then l1
  else
    { l1 with
      instanceInfos := l1.instanceInfos.map fun c => { c with horizontalSpeed := s },
      backgroundInfos := l1.backgroundInfos.map fun c => { c with horizontalSpeed := s } }

/-- `updateVerticalSpeed` of the TypeScript `Layer`. -/
def updateVerticalSpeed (l : LayerState) (s : ℚ) (pUpdateLayerConfigOnly : Bool) :
    LayerState :=
  let l1 := { l with verticalSpeed := s }
  if pUpdateLayerConfigOnly then l1
  else
    { l1 with
      instanceInfos := l1.instanceInfos.map fun c => { c with verticalSpeed := s },
      backgroundInfos := l1.backgroundInfos.map fun c => { c with verticalSpeed := s } }

end LayerTs

/-- Concrete layer (one instance record, one background record) for the
C9 failing input. -/
def exC9Layer : LayerMjs.LayerState :=
  { horizontalSpeed := 0, verticalSpeed := 0, plane := 1,
    instanceInfos := [⟨1, 1⟩], backgroundInfos := [⟨0, 0⟩] }

/-- **C9 (code bug).** On the `src/layer.mjs` revision, calling
`updateHorizontalSpeed(2, false)` (or `updateVerticalSpeed(3, false)`)
on a layer with tracked instance and background records raises a
`TypeError` and rewrites none of the per-instance configuration
records, contradicting the documented contract of the bulk speed
setters (which the later TypeScript revision implements). -/
theorem layer_update_speed_raises :
    (LayerMjs.updateHorizontalSpeed exC9Layer 2 false).2
        = some (LayerMjs.JsRuntimeError.typeError "this.instances is undefined")
    ∧ (LayerMjs.updateHorizontalSpeed exC9Layer 2 false).1.instanceInfos
        = exC9Layer.instanceInfos
    ∧ (LayerMjs.updateHorizontalSpeed exC9Layer 2 false).1.backgroundInfos
        = exC9Layer.backgroundInfos
    ∧ (LayerMjs.updateVerticalSpeed exC9Layer 3 false).2
        = some (LayerMjs.JsRuntimeError.typeError "this.instances is undefined")
    ∧ (LayerMjs.updateVerticalSpeed exC9Layer 3 false).1.instanceInfos
        = exC9Layer.instanceInfos
    ∧ (LayerMjs.updateVerticalSpeed exC9Layer 3 false).1.backgroundInfos
        = exC9Layer.backgroundInfos :=
  ⟨rfl, rfl, rfl, rfl, rfl, rfl⟩

/-- Supporting fact: the later TypeScript `Layer` revision satisfies
the claimed contract — every tracked instance and background
configuration record has its speed field rewritten in place. -/
theorem layer_ts_update_speed_rewrites (l : LayerTs.LayerState) (s : ℚ) :
    (∀ c ∈ (LayerTs.updateHorizontalSpeed l s false).instanceInfos, c.horizontalSpeed = s)
    ∧ (∀ c ∈ (LayerTs.updateHorizontalSpeed l s false).backgroundInfos, c.horizontalSpeed = s)
    ∧ (∀ c ∈ (LayerTs.updateVerticalSpeed l s false).instanceInfos, c.verticalSpeed = s)
    ∧ (∀ c ∈ (LayerTs.updateVerticalSpeed l s false).backgroundInfos, c.verticalSpeed = s) := by
  refine ⟨?_, ?_, ?_, ?_⟩ <;> intro c hc <;>
    simp only [LayerTs.updateHorizontalSpeed, LayerTs.updateVerticalSpeed,
      Bool.false_eq_true, if_false] at hc <;>
    obtain ⟨c0, -, rfl⟩ := List.mem_map.1 hc <;> rfl

end Parallax
